import Mathlib

/-!
Verification of the scoring workflow of the realtime web-services notebook
(samples/spark/tutorials/realtime/realtimewebservices.ipynb).

The notebook trains a Spark ML pipeline (RFormula "MEDV~." followed by a
GBTRegressor) on the housing table, evaluates it with a RegressionEvaluator
using the r2 metric on the same table, saves it with
pipeline.write().overwrite().save("housing.model"), and writes a score.py
with two entry points: init loads the persisted pipeline into a module-global,
and run transforms the caller-supplied dataframe, collects the scored rows,
concatenates str(pred["prediction"]) + "," for each row, slices off the last
character, and returns the result; any exception raised inside the try block
is caught and its str() is returned as the ordinary response value.

We embed dataframes as lists of association-list rows over rational cell
values, the fitted pipeline as a record of its resolved feature columns and an
opaque per-row scoring function, and Python exception flow as Except String.
External library behaviour (Spark transform, persistence, the evaluator, and
the azureml schema generator) is not part of the repository source; those
definitions are modelled from the specification and say so in their doc
comments.
-/

/-- A dataframe row: an association list from column names to numeric cell
values (integers are embedded into the rationals). -/
abbrev Row : Type := List (String × ℚ)

/-- A dataframe: a list of column names and a list of rows. -/
structure DataFrame where
  columns : List String
  rows : List Row

/-- A fitted pipeline (RFormula stage + fitted GBT regressor), kept opaque: the
resolved feature column names of the formula stage and the per-row scoring
function of the fitted regressor. -/
structure PipelineModel where
  featureCols : List String
  predict : Row → ℚ

/-- Error string raised by the transform when a feature column referenced by
the fitted formula is absent from the input dataframe (the str of the Spark
AnalysisException). -/
def missingColumnError (c : String) : String :=
  "cannot resolve column name " ++ c

/-- Error string raised by the transform when the output column already
exists in the input dataframe. -/
def outputColumnExistsError : String :=
  "output column prediction already exists"

/-- Modelled from the spec: pipeline.transform from the external Spark ML
library (not in the repository source). Applying the loaded pipeline to a
dataframe fails if a required feature column is missing, otherwise appends a
prediction column holding the score of each row. -/
def transform (p : PipelineModel) (df : DataFrame) : Except String DataFrame :=
  match p.featureCols.find? (fun c => !(df.columns.contains c)) with
  | some c => .error (missingColumnError c)
  | none =>
    if df.columns.contains "prediction" then
      .error outputColumnExistsError
    else
      .ok { columns := df.columns ++ ["prediction"],
            rows := df.rows.map (fun r => r ++ [("prediction", p.predict r)]) }

/-- The str of the Python KeyError raised by pred["prediction"] when the
scored row has no prediction entry. -/
def keyErrorPrediction : String := "\x27prediction\x27"

/-- The str of the Python NameError raised when run is called before init has
bound the module-global pipeline. -/
def nameErrorPipeline : String := "name \x27pipeline\x27 is not defined"

/-- The decimal digit character for n % 10. -/
def digitChar (n : Nat) : Char :=
  match n % 10 with
  | 0 => '0' | 1 => '1' | 2 => '2' | 3 => '3' | 4 => '4'
  | 5 => '5' | 6 => '6' | 7 => '7' | 8 => '8' | _ => '9'

/-- The decimal digits of a positive natural number, most significant first
(empty for zero). -/
def natDigits (n : Nat) : List Char :=
  if h : n = 0 then []
  else natDigits (n / 10) ++ [digitChar (n % 10)]
decreasing_by exact Nat.div_lt_self (Nat.pos_of_ne_zero h) (by decide)

/-- Decimal rendering of a natural number. -/
def natStr (n : Nat) : String :=
  if n = 0 then "0" else ⟨natDigits n⟩

/-- Exactly k decimal digits of n, zero-padded on the left. -/
def natDigitsPad : Nat → Nat → List Char
  | 0, _ => []
  | k + 1, n => natDigitsPad k (n / 10) ++ [digitChar (n % 10)]

/-- Embedding of the Python str() rendering of a floating prediction value: an
optional minus sign, the decimal integer part, a decimal point, and six
fractional digits. Like the str of a Python float, it consists only of
digits, a decimal point and a sign, and in particular never contains a
comma. -/
def strFloat (q : ℚ) : String :=
  let m : Nat := (Rat.floor (|q| * 1000000)).toNat
  (if q < 0 then "-" else "") ++ natStr (m / 1000000) ++ "." ++ ⟨natDigitsPad 6 (m % 1000000)⟩

/-- Embedding of str(pred["prediction"]): look up the prediction cell of a
scored row; a missing key raises a KeyError. -/
def strOfPred (pred : Row) : Except String String :=
  match List.lookup "prediction" pred with
  | some v => .ok (strFloat v)
  | none => .error keyErrorPrediction

/-- Embedding of the accumulation loop of run: for pred in predictions,
response += str(pred["prediction"]) + ",". -/
def buildResponse : List Row → String → Except String String
  | [], response => .ok response
  | pred :: rest, response =>
    match strOfPred pred with
    | .ok t => buildResponse rest (response ++ t ++ ",")
    | .error e => .error e

/-- Embedding of the Python slice response[:-1]: drop the last character
(the empty string stays empty). -/
def pyDropLast (s : String) : String := ⟨s.data.dropLast⟩

/-- Embedding of the try block of run in score.py: read the module-global
pipeline (a NameError if init never ran), transform the input dataframe,
collect the scored rows, accumulate the comma-terminated prediction strings,
and slice off the last character. -/
def runTry (st : Option PipelineModel) (input_df : DataFrame) : Except String String :=
  match st with
  | none => .error nameErrorPipeline
  | some pipeline =>
    match transform pipeline input_df with
    | .error e => .error e
    | .ok score =>
      match buildResponse score.rows "" with
      | .error e => .error e
      | .ok response => .ok (pyDropLast response)

/-- Embedding of run in score.py: the try block with the catch-all except
clause that returns str(e) as the ordinary response value. -/
def run (st : Option PipelineModel) (input_df : DataFrame) : String :=
  match runTry st input_df with
  | .ok response => response
  | .error e => e

/-- Modelled from the spec: the durable model store written by
pipeline.write().overwrite().save and read by PipelineModel.load, both from
the external Spark ML library (not in the repository source). A store maps a
target location to the pipeline artifact saved there, if any. -/
def Store : Type := String → Option PipelineModel

/-- Modelled from the spec: pipeline.write().overwrite().save(path) serializes
the fitted pipeline to the named location, overwriting any existing contents
unconditionally. -/
def saveOverwrite (s : Store) (path : String) (p : PipelineModel) : Store :=
  fun q => if q = path then some p else s q

/-- Modelled from the spec: PipelineModel.load(path) reads the artifact
persisted at the named location. -/
def loadModel (s : Store) (path : String) : Option PipelineModel := s path

/-- Embedding of init in score.py: bind the module-global pipeline to the
artifact loaded from "housing.model", regardless of any previous binding. -/
def init (store : Store) (_st : Option PipelineModel) : Option PipelineModel :=
  loadModel store "housing.model"

/-- An event of the scoring process: a call to init or a call to run on some
input dataframe. -/
inductive Event
  | evInit : Event
  | evRun : DataFrame → Event

/-- The module-global pipeline state after a sequence of init and run calls:
init rebinds the global from the store, run only reads it. -/
def execState (store : Store) : Option PipelineModel → List Event → Option PipelineModel
  | st, [] => st
  | st, Event.evInit :: es => execState store (init store st) es
  | st, Event.evRun _ :: es => execState store st es

/-- Modelled from the spec: the r2 metric of the external RegressionEvaluator,
the coefficient of determination comparing predicted values (first component)
to actual target values (second component): one minus the ratio of the
residual sum of squares to the total sum of squares about the mean. -/
def rSquared (pairs : List (ℚ × ℚ)) : ℚ :=
  let n : ℚ := pairs.length
  let meanActual := (pairs.map Prod.snd).sum / n
  let ssRes := (pairs.map (fun pr => (pr.2 - pr.1) ^ 2)).sum
  let ssTot := (pairs.map (fun pr => (pr.2 - meanActual) ^ 2)).sum
  1 - ssRes / ssTot

/-- The prediction/actual pairs read off a scored dataframe: the prediction
column against the named target column. -/
def predActualPairs (scored : DataFrame) (labelCol : String) : List (ℚ × ℚ) :=
  scored.rows.map (fun r =>
    ((List.lookup "prediction" r).getD 0, (List.lookup labelCol r).getD 0))

/-- Embedding of the training and evaluation cells of the notebook: fit the
pipeline on the full table df2, transform the very same table, and evaluate
r2 on the scored result (none if the transform raises). The fitting itself is
external and opaque, so it is an argument. -/
def trainAndEvaluate (fit : DataFrame → PipelineModel) (df2 : DataFrame) :
    Option (PipelineModel × ℚ) :=
  let pipeline := fit df2
  match transform pipeline df2 with
  | .error _ => none
  | .ok scores => some (pipeline, rSquared (predActualPairs scores "MEDV"))

/-- A column type of the sample dataframe, as inferred by the schema
generator. -/
inductive ColType
  | double
  | integer

/-- The swagger type/format pair of a column type: double columns become
number/double, integer columns become integer/int32. -/
def swaggerTypeFormat : ColType → String × String
  | .double => ("number", "double")
  | .integer => ("integer", "int32")

/-- A sample definition handed to the schema generator: the typed columns of
the sample dataframe and its rows. -/
structure SampleDef where
  cols : List (String × ColType)
  rows : List Row

/-- The schema document produced by the schema generator: the internal
structural field list (name, type, nullable) and the swagger view (one
type/format property per column plus literal example rows). -/
structure SchemaDoc where
  internalFields : List (String × ColType × Bool)
  swaggerProps : List (String × (String × String))
  swaggerExample : List Row

/-- Modelled from the spec: generate_schema from the external azureml SDK
(not in the repository source). It introspects the sample column names and
types and produces the internal structural field list (one nullable field per
column), the swagger property list (one type/format entry per column), and
the swagger example rows drawn from the sample. -/
def generate_schema (sample : SampleDef) : SchemaDoc :=
  { internalFields := sample.cols.map (fun c => (c.1, c.2, true)),
    swaggerProps := sample.cols.map (fun c => (c.1, swaggerTypeFormat c.2)),
    swaggerExample := sample.rows }

/-- Render a list of prediction strings as the comma-separated string with no
trailing comma that the handler is specified to return. -/
def joinComma : List String → String
  | [] => ""
  | [t] => t
  | t :: ts => t ++ "," ++ joinComma ts

/-- A numeric character: a decimal digit, a decimal point or a minus sign. -/
def isNumChar (c : Char) : Bool :=
  (('0' ≤ c) && (c ≤ '9')) || c == '.' || c == '-'

/-- A numeric token: a nonempty string of numeric characters (in particular it
contains no comma). -/
def isNumToken (s : String) : Bool :=
  !s.data.isEmpty && s.data.all isNumChar

/-- The feature columns of the trained housing pipeline, read off the schema
the notebook generates from df2 with the MEDV target dropped. -/
def housingFeatureColumns : List String :=
  ["CRIM", "ZN", "INDUS", "CHAS", "NOX", "RM", "AGE", "DIS", "RAD", "TAX",
   "PTRATIO", "LSTAT"]

/-- The columns of the three-row sample input dataframe the notebook scores
with score.run. -/
def sampleInputColumns : List String :=
  ["CRIM", "ZN", "INDUS", "CHAS", "NOX", "RM", "AGE", "DIS", "RAD", "TAX",
   "PTRATIO", "B", "LSTAT"]

/-- First row of the documented sample input. -/
def sampleRow1 : Row :=
  [("CRIM", 0.00632), ("ZN", 18.0), ("INDUS", 2.31), ("CHAS", 0),
   ("NOX", 0.538), ("RM", 6.575), ("AGE", 65.2), ("DIS", 4.09), ("RAD", 1),
   ("TAX", 296), ("PTRATIO", 15.3), ("B", 4.98), ("LSTAT", 24.0)]

/-- Second row of the documented sample input. -/
def sampleRow2 : Row :=
  [("CRIM", 0.00632), ("ZN", 59.0), ("INDUS", 2.31), ("CHAS", 0),
   ("NOX", 0.538), ("RM", 6.575), ("AGE", 65.2), ("DIS", 4.09), ("RAD", 1),
   ("TAX", 296), ("PTRATIO", 15.3), ("B", 4.98), ("LSTAT", 24.0)]

/-- Third row of the documented sample input. -/
def sampleRow3 : Row :=
  [("CRIM", 0.00332), ("ZN", 76.0), ("INDUS", 2.31), ("CHAS", 0),
   ("NOX", 0.538), ("RM", 6.575), ("AGE", 65.2), ("DIS", 4.09), ("RAD", 1),
   ("TAX", 296), ("PTRATIO", 15.3), ("B", 4.98), ("LSTAT", 12.0)]

/-- The documented three-row sample input dataframe of the notebook. -/
def sampleInputDf : DataFrame :=
  { columns := sampleInputColumns, rows := [sampleRow1, sampleRow2, sampleRow3] }

/-- A concrete stand-in for the opaque fitted housing pipeline, used to
instantiate universally quantified statements at a specific input. -/
def demoPipeline : PipelineModel :=
  { featureCols := housingFeatureColumns, predict := fun _ => 20 }

/-- The raw accumulation of the loop of run: every prediction string is
followed by a comma, including the last one. -/
def concatCommas : List String → String
  | [] => ""
  | t :: ts => t ++ "," ++ concatCommas ts

theorem lookup_append_right (k : String) (l₁ l₂ : Row) (h : k ∉ l₁.map Prod.fst) :
    List.lookup k (l₁ ++ l₂) = List.lookup k l₂ := by
  induction l₁ with
  | nil => rfl
  | cons p l ih =>
    obtain ⟨a, v⟩ := p
    simp only [List.map_cons, List.mem_cons, not_or] at h
    obtain ⟨h1, h2⟩ := h
    have hne : (k == a) = false := by
      simp only [beq_eq_false_iff_ne, ne_eq]
      exact h1
    simp only [List.cons_append, List.lookup, hne]
    exact ih h2

theorem strOfPred_scored (r : Row) (v : ℚ) (h : "prediction" ∉ r.map Prod.fst) :
    strOfPred (r ++ [("prediction", v)]) = .ok (strFloat v) := by
  unfold strOfPred
  rw [lookup_append_right _ _ _ h]
  rfl

theorem buildResponse_ok (f : Row → ℚ) (rows : List Row) :
    ∀ acc : String, (∀ r ∈ rows, "prediction" ∉ r.map Prod.fst) →
      buildResponse (rows.map (fun r => r ++ [("prediction", f r)])) acc =
        .ok (acc ++ concatCommas (rows.map (fun r => strFloat (f r)))) := by
  induction rows with
  | nil =>
    intro acc _
    simp [buildResponse, concatCommas]
  | cons r rest ih =>
    intro acc h
    have hr : "prediction" ∉ r.map Prod.fst := h r (List.mem_cons_self r rest)
    have hrest : ∀ x ∈ rest, "prediction" ∉ x.map Prod.fst :=
      fun x hx => h x (List.mem_cons_of_mem r hx)
    simp only [List.map_cons, buildResponse, strOfPred_scored r (f r) hr]
    rw [ih (acc ++ strFloat (f r) ++ ",") hrest]
    simp [concatCommas, String.append_assoc]

theorem data_pyDropLast (s : String) : (pyDropLast s).data = s.data.dropLast := rfl

theorem concatCommas_cons_data (t : String) (ts : List String) :
    (concatCommas (t :: ts)).data = t.data ++ ',' :: (concatCommas ts).data := by
  simp [concatCommas, String.data_append]

theorem concatCommas_data_ne_nil (t : String) (ts : List String) :
    (concatCommas (t :: ts)).data ≠ [] := by
  rw [concatCommas_cons_data]
  simp

theorem pyDropLast_concatCommas (toks : List String) :
    pyDropLast (concatCommas toks) = joinComma toks := by
  induction toks with
  | nil => rfl
  | cons t ts ih =>
    cases ts with
    | nil =>
      apply String.ext
      rw [data_pyDropLast, concatCommas_cons_data]
      simp [concatCommas, joinComma]
    | cons t2 ts2 =>
      apply String.ext
      rw [data_pyDropLast, concatCommas_cons_data]
      have ihd := congrArg String.data ih
      rw [data_pyDropLast] at ihd
      have hsplit : t.data ++ ',' :: (concatCommas (t2 :: ts2)).data =
          (t.data ++ [',']) ++ (concatCommas (t2 :: ts2)).data := by simp
      rw [hsplit, List.dropLast_append_of_ne_nil _ (concatCommas_data_ne_nil t2 ts2), ihd]
      simp [joinComma, String.data_append]

theorem empty_string_append (s : String) : "" ++ s = s := rfl

theorem transform_ok (p : PipelineModel) (df : DataFrame)
    (hall : ∀ c ∈ p.featureCols, df.columns.contains c = true)
    (hpred : df.columns.contains "prediction" = false) :
    transform p df =
      .ok { columns := df.columns ++ ["prediction"],
            rows := df.rows.map (fun r => r ++ [("prediction", p.predict r)]) } := by
  unfold transform
  have hfind : p.featureCols.find? (fun c => !(df.columns.contains c)) = none := by
    rw [List.find?_eq_none]
    intro c hc
    rw [hall c hc]
    decide
  rw [hfind, hpred]
  simp

theorem runTry_valid (p : PipelineModel) (df : DataFrame)
    (hall : ∀ c ∈ p.featureCols, df.columns.contains c = true)
    (hpred : df.columns.contains "prediction" = false)
    (hwf : ∀ r ∈ df.rows, "prediction" ∉ r.map Prod.fst) :
    runTry (some p) df =
      .ok (joinComma (df.rows.map (fun r => strFloat (p.predict r)))) := by
  have h2 := buildResponse_ok p.predict df.rows "" hwf
  simp only [runTry, transform_ok p df hall hpred]
  simp only [h2, empty_string_append, pyDropLast_concatCommas]

theorem run_valid (p : PipelineModel) (df : DataFrame)
    (hall : ∀ c ∈ p.featureCols, df.columns.contains c = true)
    (hpred : df.columns.contains "prediction" = false)
    (hwf : ∀ r ∈ df.rows, "prediction" ∉ r.map Prod.fst) :
    run (some p) df = joinComma (df.rows.map (fun r => strFloat (p.predict r))) := by
  unfold run
  rw [runTry_valid p df hall hpred hwf]

theorem digitChar_numChar (n : Nat) : isNumChar (digitChar n) = true := by
  unfold digitChar
  split <;> decide

theorem natDigits_numChars (n : Nat) : ∀ c ∈ natDigits n, isNumChar c = true := by
  induction n using Nat.strong_induction_on with
  | _ n ih =>
    rw [natDigits]
    split
    · simp
    · intro c hc
      rcases List.mem_append.mp hc with h | h
      · next hn =>
        exact ih (n / 10) (Nat.div_lt_self (Nat.pos_of_ne_zero hn) (by decide)) c h
      · rw [List.mem_singleton.mp h]
        exact digitChar_numChar _

theorem natDigitsPad_numChars (k : Nat) :
    ∀ n, ∀ c ∈ natDigitsPad k n, isNumChar c = true := by
  induction k with
  | zero =>
    intro n c hc
    simp [natDigitsPad] at hc
  | succ k ih =>
    intro n c hc
    rw [natDigitsPad] at hc
    rcases List.mem_append.mp hc with h | h
    · exact ih (n / 10) c h
    · rw [List.mem_singleton.mp h]
      exact digitChar_numChar _

theorem natStr_numChars (n : Nat) : ∀ c ∈ (natStr n).data, isNumChar c = true := by
  unfold natStr
  split
  · intro c hc
    rw [List.mem_singleton.mp hc]
    decide
  · exact fun c hc => natDigits_numChars n c hc

theorem isNumToken_of (s : String) (hne : s.data ≠ [])
    (h : ∀ c ∈ s.data, isNumChar c = true) : isNumToken s = true := by
  unfold isNumToken
  rw [Bool.and_eq_true, List.all_eq_true]
  refine ⟨?_, h⟩
  rw [Bool.not_eq_true', List.isEmpty_eq_false]
  exact hne

theorem strFloat_numToken (q : ℚ) : isNumToken (strFloat q) = true := by
  have hdata : (strFloat q).data =
      (if q < 0 then "-" else "").data
        ++ (natStr ((Rat.floor (|q| * 1000000)).toNat / 1000000)).data
        ++ '.' :: natDigitsPad 6 ((Rat.floor (|q| * 1000000)).toNat % 1000000) := by
    unfold strFloat
    simp [String.data_append]
  apply isNumToken_of
  · rw [hdata]
    simp
  · intro c hc
    rw [hdata] at hc
    rcases List.mem_append.mp hc with h1 | h2
    · rcases List.mem_append.mp h1 with hs | hn
      · by_cases hq : q < 0
        · rw [if_pos hq] at hs
          rw [List.mem_singleton.mp hs]
          decide
        · rw [if_neg hq] at hs
          simp at hs
      · exact natStr_numChars _ c hn
    · rcases List.mem_cons.mp h2 with hdot | hpad
      · rw [hdot]
        decide
      · exact natDigitsPad_numChars 6 _ c hpad

/-- A valid input row keyed exactly by the trained feature columns, used to
instantiate universally quantified statements at a specific input. -/
def demoValidRow : Row :=
  [("CRIM", 1), ("ZN", 2), ("INDUS", 3), ("CHAS", 0), ("NOX", 5), ("RM", 6),
   ("AGE", 7), ("DIS", 8), ("RAD", 9), ("TAX", 10), ("PTRATIO", 11),
   ("LSTAT", 12)]

/-- A valid one-row input dataframe whose columns are exactly the trained
feature columns. -/
def demoValidDf : DataFrame :=
  { columns := housingFeatureColumns, rows := [demoValidRow] }

/-- A valid zero-row input dataframe whose columns are exactly the trained
feature columns. -/
def demoEmptyDf : DataFrame :=
  { columns := housingFeatureColumns, rows := [] }

/-- C1: for every valid input table whose columns are exactly the trained
feature columns, the request handler run returns a string consisting of
exactly one numeric prediction token per input row, joined by commas, in
input row order, with no trailing comma. -/
theorem run_valid_table_comma_tokens (p : PipelineModel) (df : DataFrame)
    (hcols : df.columns = p.featureCols)
    (hnp : "prediction" ∉ p.featureCols)
    (hwf : ∀ r ∈ df.rows, r.map Prod.fst = df.columns) :
    ∃ toks : List String,
      run (some p) df = joinComma toks ∧
      toks = df.rows.map (fun r => strFloat (p.predict r)) ∧
      toks.length = df.rows.length ∧
      toks.all isNumToken = true := by
  have hall : ∀ c ∈ p.featureCols, df.columns.contains c = true := by
    intro c hc
    rw [hcols]
    exact List.elem_iff.mpr hc
  have hpred : df.columns.contains "prediction" = false := by
    rw [hcols]
    exact Bool.eq_false_iff.mpr (fun h => hnp (List.elem_iff.mp h))
  have hwf2 : ∀ r ∈ df.rows, "prediction" ∉ r.map Prod.fst := by
    intro r hr
    rw [hwf r hr, hcols]
    exact hnp
  refine ⟨df.rows.map (fun r => strFloat (p.predict r)),
    run_valid p df hall hpred hwf2, rfl, by simp, ?_⟩
  rw [List.all_eq_true]
  intro t ht
  rcases List.mem_map.mp ht with ⟨r, _, rfl⟩
  exact strFloat_numToken _

/-- Witness for C1 at the one-row demo table and the demo pipeline. -/
theorem run_valid_table_comma_tokens_witness :
    (demoValidDf.columns = demoPipeline.featureCols ∧
      "prediction" ∉ demoPipeline.featureCols ∧
      ∀ r ∈ demoValidDf.rows, r.map Prod.fst = demoValidDf.columns) ∧
    ∃ toks : List String,
      run (some demoPipeline) demoValidDf = joinComma toks ∧
      toks = demoValidDf.rows.map (fun r => strFloat (demoPipeline.predict r)) ∧
      toks.length = demoValidDf.rows.length ∧
      toks.all isNumToken = true :=
  ⟨⟨rfl, by decide, by decide⟩,
    run_valid_table_comma_tokens demoPipeline demoValidDf rfl (by decide) (by decide)⟩

/-- C2: on an input table missing a required feature column, the transform
raises, the handler catches the exception, and run returns its string
representation as the ordinary response value instead of propagating. -/
theorem run_missing_column_returns_error_string (p : PipelineModel) (df : DataFrame)
    (hmiss : ∃ c ∈ p.featureCols, df.columns.contains c = false) :
    ∃ e : String, runTry (some p) df = Except.error e ∧ run (some p) df = e ∧
      ∃ c ∈ p.featureCols, df.columns.contains c = false ∧
        e = missingColumnError c := by
  obtain ⟨c, hc, hnc⟩ := hmiss
  have hsome : (p.featureCols.find? (fun x => !(df.columns.contains x))).isSome := by
    rw [List.find?_isSome]
    exact ⟨c, hc, by rw [hnc]; rfl⟩
  obtain ⟨c0, hc0⟩ := Option.isSome_iff_exists.mp hsome
  have hmem := List.mem_of_find?_eq_some hc0
  have hpred := List.find?_some hc0
  have hnc0 : df.columns.contains c0 = false := by
    rwa [Bool.not_eq_eq_eq_not, Bool.not_true] at hpred
  refine ⟨missingColumnError c0, ?_, ?_, c0, hmem, hnc0, rfl⟩
  · simp only [runTry, transform, hc0]
  · simp only [run, runTry, transform, hc0]

/-- Witness for C2: the demo pipeline applied to a dataframe lacking the ZN
column. -/
theorem run_missing_column_returns_error_string_witness :
    (∃ c ∈ demoPipeline.featureCols,
      (DataFrame.mk ["CRIM"] []).columns.contains c = false) ∧
    ∃ e : String,
      runTry (some demoPipeline) (DataFrame.mk ["CRIM"] []) = Except.error e ∧
      run (some demoPipeline) (DataFrame.mk ["CRIM"] []) = e ∧
      ∃ c ∈ demoPipeline.featureCols,
        (DataFrame.mk ["CRIM"] []).columns.contains c = false ∧
          e = missingColumnError c :=
  ⟨⟨"ZN", by decide, by decide⟩,
    run_missing_column_returns_error_string demoPipeline (DataFrame.mk ["CRIM"] [])
      ⟨"ZN", by decide, by decide⟩⟩

/-- C8: for every input, run returns a string even if the initializer was
never called: the NameError raised by the unbound module-global pipeline is
caught by the catch-all and its string representation is returned. -/
theorem run_uninitialized_name_error (df : DataFrame) :
    runTry none df = Except.error nameErrorPipeline ∧
      run none df = nameErrorPipeline :=
  ⟨rfl, rfl⟩

/-- C9: for an input table with zero rows and valid feature columns, run
returns the empty string, because slicing the last character off the empty
accumulated response yields the empty string. -/
theorem run_empty_table_empty_string (p : PipelineModel) (df : DataFrame)
    (hall : ∀ c ∈ p.featureCols, df.columns.contains c = true)
    (hpred : df.columns.contains "prediction" = false)
    (hrows : df.rows = []) :
    run (some p) df = "" := by
  rw [run_valid p df hall hpred (by rw [hrows]; simp), hrows]
  rfl

/-- Witness for C9 at the zero-row demo table and the demo pipeline. -/
theorem run_empty_table_empty_string_witness :
    ((∀ c ∈ demoPipeline.featureCols, demoEmptyDf.columns.contains c = true) ∧
      demoEmptyDf.columns.contains "prediction" = false ∧
      demoEmptyDf.rows = []) ∧
    run (some demoPipeline) demoEmptyDf = "" :=
  ⟨⟨by decide, by decide, rfl⟩,
    run_empty_table_empty_string demoPipeline demoEmptyDf (by decide) (by decide) rfl⟩

/-- C7: applied to the documented three-row sample input after the pipeline
has been loaded, run returns a string of exactly three comma-separated
numeric tokens. -/
theorem run_sample_three_tokens (p : PipelineModel)
    (hp : p.featureCols = housingFeatureColumns) :
    ∃ toks : List String,
      run (some p) sampleInputDf = joinComma toks ∧
      toks.length = 3 ∧ toks.all isNumToken = true := by
  have hall : ∀ c ∈ p.featureCols, sampleInputDf.columns.contains c = true := by
    rw [hp]
    decide
  have hpred : sampleInputDf.columns.contains "prediction" = false := by decide
  have hwf : ∀ r ∈ sampleInputDf.rows, "prediction" ∉ r.map Prod.fst := by decide
  refine ⟨sampleInputDf.rows.map (fun r => strFloat (p.predict r)),
    run_valid p sampleInputDf hall hpred hwf, by simp [sampleInputDf], ?_⟩
  rw [List.all_eq_true]
  intro t ht
  rcases List.mem_map.mp ht with ⟨r, _, rfl⟩
  exact strFloat_numToken _

/-- Witness for C7 at the demo pipeline. -/
theorem run_sample_three_tokens_witness :
    demoPipeline.featureCols = housingFeatureColumns ∧
    ∃ toks : List String,
      run (some demoPipeline) sampleInputDf = joinComma toks ∧
      toks.length = 3 ∧ toks.all isNumToken = true :=
  ⟨rfl, run_sample_three_tokens demoPipeline rfl⟩

/-- C3: saving a fitted pipeline to a target location that already holds a
previously saved pipeline unconditionally overwrites the prior contents, and
a subsequent init load yields a pipeline whose scoring agrees with the most
recently saved fit, not any earlier one. -/
theorem save_overwrite_load_latest (store : Store) (p1 p2 : PipelineModel)
    (st : Option PipelineModel) (df : DataFrame) :
    init (saveOverwrite (saveOverwrite store "housing.model" p1)
        "housing.model" p2) st = some p2 ∧
    run (init (saveOverwrite (saveOverwrite store "housing.model" p1)
        "housing.model" p2) st) df = run (some p2) df := by
  constructor
  · simp [init, loadModel, saveOverwrite]
  · simp [init, loadModel, saveOverwrite]

/-- C5: calling the initializer twice in succession leaves the request
handler behavior unchanged: for every input table, run after two init calls
returns the same result as run after a single init call. -/
theorem init_idempotent_for_run (store : Store) (st : Option PipelineModel)
    (df : DataFrame) :
    run (execState store st [Event.evInit, Event.evInit]) df =
      run (execState store st [Event.evInit]) df := rfl

/-- A sequence of events containing no init call leaves the module-global
pipeline state unchanged (run only reads it). -/
theorem execState_no_init (store : Store) (es : List Event) :
    Event.evInit ∉ es → ∀ s : Option PipelineModel, execState store s es = s := by
  induction es with
  | nil =>
    intro _ s
    rfl
  | cons e rest ih =>
    intro h s
    cases e with
    | evInit => exact absurd (List.mem_cons_self _ _) h
    | evRun df => exact ih (fun hm => h (List.mem_cons_of_mem _ hm)) s

/-- C10: run never writes the module-global pipeline state: a sequence of
events containing no init call leaves the state unchanged, so the loaded
pipeline after any sequence of run calls equals the pipeline established by
the last init. -/
theorem run_preserves_pipeline_state (store : Store) (st : Option PipelineModel)
    (es : List Event) (h : Event.evInit ∉ es) :
    execState store st es = st ∧
      execState store st (Event.evInit :: es) = init store st :=
  ⟨execState_no_init store es h st, execState_no_init store es h (init store st)⟩

/-- Witness for C10: a single run call on the sample input leaves the state
unchanged. -/
theorem run_preserves_pipeline_state_witness :
    (Event.evInit ∉ [Event.evRun sampleInputDf]) ∧
    (execState (fun _ => none) none [Event.evRun sampleInputDf] = none ∧
      execState (fun _ => none) none (Event.evInit :: [Event.evRun sampleInputDf]) =
        init (fun _ => none) none) :=
  ⟨by simp,
    run_preserves_pipeline_state (fun _ => none) none [Event.evRun sampleInputDf]
      (by simp)⟩

/-- C4: for every sample input with N feature columns, schema generation
produces a structural field list of length N, a swagger property list with
exactly one type/format entry per column (double columns become
number/double, integer columns become integer/int32), and a swagger example
list containing all rows present in the sample. -/
theorem generate_schema_shape (sample : SampleDef) :
    (generate_schema sample).internalFields.length = sample.cols.length ∧
    (generate_schema sample).internalFields =
      sample.cols.map (fun c => (c.1, c.2, true)) ∧
    (generate_schema sample).swaggerProps =
      sample.cols.map (fun c => (c.1, swaggerTypeFormat c.2)) ∧
    swaggerTypeFormat ColType.double = ("number", "double") ∧
    swaggerTypeFormat ColType.integer = ("integer", "int32") ∧
    (generate_schema sample).swaggerExample = sample.rows :=
  ⟨by simp [generate_schema], rfl, rfl, rfl, rfl, rfl⟩

/-- A concrete stand-in for the opaque external fit of the training stage,
used to instantiate universally quantified statements at a specific input. -/
def demoFit : DataFrame → PipelineModel :=
  fun _ => { featureCols := ["x"], predict := fun _ => 1 }

/-- A one-row training table with one feature column and the MEDV target. -/
def demoTrainDf : DataFrame :=
  { columns := ["x", "MEDV"], rows := [[("x", 1), ("MEDV", 2)]] }

/-- C6: the training stage evaluation score is the coefficient of
determination computed by transforming the very same table the pipeline was
fitted on and comparing the predictions to the actual target values; no
separate validation split is used. -/
theorem train_eval_r2_on_training_data (fit : DataFrame → PipelineModel)
    (df2 : DataFrame) (p : PipelineModel) (s : ℚ)
    (h : trainAndEvaluate fit df2 = some (p, s)) :
    p = fit df2 ∧
    ∃ scored : DataFrame, transform (fit df2) df2 = Except.ok scored ∧
      s = rSquared (predActualPairs scored "MEDV") := by
  simp only [trainAndEvaluate] at h
  cases htr : transform (fit df2) df2 with
  | error e =>
    rw [htr] at h
    simp at h
  | ok scored =>
    rw [htr] at h
    simp only [Option.some.injEq, Prod.mk.injEq] at h
    exact ⟨h.1.symm, scored, rfl, h.2.symm⟩

/-- Witness for C6 at the demo fit and the one-row demo training table. -/
theorem train_eval_r2_on_training_data_witness :
    trainAndEvaluate demoFit demoTrainDf = some (demoFit demoTrainDf, 1) ∧
    (demoFit demoTrainDf = demoFit demoTrainDf ∧
      ∃ scored : DataFrame, transform (demoFit demoTrainDf) demoTrainDf = Except.ok scored ∧
        (1 : ℚ) = rSquared (predActualPairs scored "MEDV")) :=
  ⟨by simp [trainAndEvaluate, transform, demoFit, demoTrainDf, rSquared, predActualPairs,
      List.find?, List.lookup],
    train_eval_r2_on_training_data demoFit demoTrainDf (demoFit demoTrainDf) 1
      (by simp [trainAndEvaluate, transform, demoFit, demoTrainDf, rSquared, predActualPairs,
        List.find?, List.lookup])⟩
